import Mathlib

/-!
Shallow embedding of the `ai` package of NaheedRayan/openrouter-go.

Go source files embedded here:
  - ai/ai_client_interface.go   (generic data model)
  - ai/ai_client_factory.go     (NewClient, InitializeClient)
  - ai/openai_client_implementation.go
  - ai/gemini_client_implementation.go
  - ai/bedrock_client_implementation.go

Conventions of the embedding:
  - Go `float32` sampling values are only ever copied, never computed with,
    so they are represented by `ℚ`; Go integer types by `Int`; byte slices
    by `List Nat`.
  - Go functions returning `(Response, error)` become functions returning
    `Response × Option String` (`none` = nil error, `some e` = error with
    message `e`), mirroring the Go convention of returning the zero
    `Response{}` next to a non-nil error.
  - Network / SDK effects (the provider call, the image download) are
    passed in as oracle functions, so that the request actually handed to
    the provider SDK is visible in the model.
  - The Gemini adapter mutates its shared `genai.GenerativeModel`; that
    model object is embedded as an explicit `GModelState` threaded through
    the two Gemini operations.
-/

/-- Go `ai.Image` (ai_client_interface.go): format tag, inline bytes, URL. -/
structure Image where
  Format : String
  Data : List Nat
  URL : String
deriving DecidableEq, Repr

/-- Go `ai.InputMessage`: role, text content, optional images. -/
structure InputMessage where
  Role : String
  Content : String
  Images : List Image
deriving DecidableEq, Repr

/-- Go `ai.ModelConfig`: sampling parameters, system prompt, stop sequences. -/
structure ModelConfig where
  Temperature : ℚ
  TopP : ℚ
  TopK : Int
  MaxTokens : Int
  SystemPrompt : String
  StopSequences : List String
deriving DecidableEq, Repr

/-- Go `ai.TokenUsage`. -/
structure TokenUsage where
  InputTokens : Int
  OutputTokens : Int
  TotalTokens : Int
deriving DecidableEq, Repr

/-! ### Provider-specific response shapes (what each SDK hands back) -/

/-- OpenAI `response.Usage` fields read by the adapter. -/
structure OpenAIUsage where
  PromptTokens : Int
  CompletionTokens : Int
  TotalTokens : Int
deriving DecidableEq, Repr

/-- OpenAI choice message: only `.Content` is read. -/
structure OAIChoiceMessage where
  Content : String
deriving DecidableEq, Repr

/-- One entry of OpenAI `response.Choices`. -/
structure OAIChoice where
  Message : OAIChoiceMessage
deriving DecidableEq, Repr

/-- The part of the OpenAI chat-completion response the adapter reads. -/
structure OpenAIResp where
  Choices : List OAIChoice
  Usage : OpenAIUsage
deriving DecidableEq, Repr

/-- A `genai.Part`: either `genai.Text` or a blob such as `genai.ImageData`.
The Go code type-switches on `genai.Text`; every non-text part falls in
the `blob` constructor. -/
inductive GPart where
  | text (s : String)
  | blob (format : String) (data : List Nat)
deriving DecidableEq, Repr

/-- `genai` usage metadata fields read by the adapter. -/
structure GUsage where
  PromptTokenCount : Int
  CandidatesTokenCount : Int
  TotalTokenCount : Int
deriving DecidableEq, Repr

/-- `genai.Content` as read: just its parts list. -/
structure GContent where
  Parts : List GPart
deriving DecidableEq, Repr

/-- One Gemini candidate; `Content` is a nilable pointer in Go. -/
structure GCandidate where
  Content : Option GContent
deriving DecidableEq, Repr

/-- The part of the Gemini generate-content response the adapter reads;
`UsageMetadata` is a nilable pointer in Go. -/
structure GenaiResp where
  Candidates : List GCandidate
  UsageMetadata : Option GUsage
deriving DecidableEq, Repr

/-- Bedrock parsed `responseBody.Output.Message.Content` entry. -/
structure BContentEntry where
  Text : String
deriving DecidableEq, Repr

/-- Bedrock parsed `responseBody.Output.Message`. -/
structure BOutputMessage where
  Content : List BContentEntry
deriving DecidableEq, Repr

/-- Bedrock parsed `responseBody.Output`. -/
structure BOutput where
  Message : BOutputMessage
deriving DecidableEq, Repr

/-- Bedrock parsed `responseBody.Usage`: the struct the Go code unmarshals
into declares only `inputTokens` and `outputTokens`. -/
structure BUsage where
  InputTokens : Int
  OutputTokens : Int
deriving DecidableEq, Repr

/-- The anonymous struct Bedrock responses are unmarshalled into. -/
structure BedrockBody where
  Output : BOutput
  Usage : BUsage
deriving DecidableEq, Repr

/-- The Go `Response.Raw interface{}` field: nil, or the provider response
object each adapter stores there. -/
inductive RawPayload where
  | null
  | openai (r : OpenAIResp)
  | gemini (r : GenaiResp)
  | bedrock (r : BedrockBody)
deriving DecidableEq, Repr

/-- Go `ai.Response`: normalized text, token usage, raw provider payload. -/
structure Response where
  Text : String
  TokenUsage : TokenUsage
  Raw : RawPayload
deriving DecidableEq, Repr

/-- The Go zero value `Response{}` (nil interface in `Raw`). -/
def zeroResponse : Response :=
  { Text := "", TokenUsage := ⟨0, 0, 0⟩, Raw := .null }

/-! ### Client factory (ai_client_factory.go) -/

/-- Which adapter `NewClient` constructed. -/
inductive ClientKind where
  | openai
  | gemini
  | bedrock
deriving DecidableEq, Repr

/-- Go `ai.NewClient`: switch on the provider identifier; unknown
identifiers yield the "unsupported provider" error. -/
def NewClient (provider : String) : Except String ClientKind :=
  if provider = "openai" then .ok .openai
  else if provider = "gemini" then .ok .gemini
  else if provider = "bedrock" then .ok .bedrock
  else .error ("unsupported provider: " ++ provider)

/-- Go `ai.InitializeClient`: construct via `NewClient`, then run the
adapter's `Initialize`; `initResult c = some e` models that adapter's
initialization failing with error `e`, `none` models success. -/
def InitializeClient (provider : String) (initResult : ClientKind → Option String) :
    Except String ClientKind :=
  match NewClient provider with
  | .error e => .error e
  | .ok client =>
    match initResult client with
    | some e => .error e
    | none => .ok client

/-! ### OpenAI adapter (openai_client_implementation.go) -/

/-- An `openai.ChatCompletionMessageParamUnion` as the adapter builds them:
`openai.SystemMessage`, `openai.AssistantMessage` or `openai.UserMessage`. -/
inductive OAIMsg where
  | system (s : String)
  | assistant (s : String)
  | user (s : String)
deriving DecidableEq, Repr

/-- The per-message switch in `OpenAIClient.TextCompletion`: "system" and
"assistant" roles are kept, every other role falls to the default case and
becomes a user message. -/
def openaiMessageOf (msg : InputMessage) : OAIMsg :=
  if msg.Role = "system" then .system msg.Content
  else if msg.Role = "assistant" then .assistant msg.Content
  else .user msg.Content

/-- The fields of `openai.ChatCompletionNewParams` the adapter sets.
The params struct has no top-k field; `config.TopK` is never used. -/
structure OpenAIParams where
  Messages : List OAIMsg
  Model : String
  Temperature : ℚ
  TopP : ℚ
  MaxTokens : Int
deriving DecidableEq, Repr

/-- Request building of `OpenAIClient.TextCompletion` (lines 48-75):
optional system message from the config, then every input message in
order, then the sampling parameters. -/
def openaiBuildParams (modelID : String) (messages : List InputMessage)
    (config : ModelConfig) : OpenAIParams :=
  let sysMsgs : List OAIMsg :=
    if config.SystemPrompt ≠ "" then [.system config.SystemPrompt] else []
  { Messages := sysMsgs ++ messages.map openaiMessageOf
    Model := modelID
    Temperature := config.Temperature
    TopP := config.TopP
    MaxTokens := config.MaxTokens }

/-- Response normalization of `OpenAIClient.TextCompletion` (lines 88-103):
usage counts copied, text from `Choices[0]` when present. -/
def openaiNormalize (response : OpenAIResp) : Response :=
  let result : Response :=
    { Text := ""
      TokenUsage :=
        { InputTokens := response.Usage.PromptTokens
          OutputTokens := response.Usage.CompletionTokens
          TotalTokens := response.Usage.TotalTokens }
      Raw := .openai response }
  match response.Choices with
  | [] => result
  | choice :: _ => { result with Text := choice.Message.Content }

/-- `OpenAIClient.TextCompletion`: build params, call the SDK (`sdk` is the
oracle for `c.client.Chat.Completions.New`), wrap errors, normalize. -/
def openaiTextCompletion (modelID : String)
    (sdk : OpenAIParams → Except String OpenAIResp)
    (messages : List InputMessage) (config : ModelConfig) :
    Response × Option String :=
  let params := openaiBuildParams modelID messages config
  match sdk params with
  | .error e => (zeroResponse, some ("error getting response: " ++ e))
  | .ok response => (openaiNormalize response, none)

/-- `OpenAIClient.ImageRecognition`: unconditionally returns the zero
response and the not-implemented error; no SDK oracle is even consumed. -/
def openaiImageRecognition (_messages : List InputMessage) (_config : ModelConfig) :
    Response × Option String :=
  (zeroResponse, some "method not implemented for OpenAI client yet")

/-! ### Gemini adapter (gemini_client_implementation.go) -/

/-- The mutable `genai.GenerativeModel` fields the adapter writes:
the generation-config setters and `SystemInstruction` (nil until set). -/
structure GModelState where
  Temperature : ℚ
  TopP : ℚ
  TopK : Int
  MaxOutputTokens : Int
  SystemInstruction : Option String
deriving DecidableEq, Repr

/-- Lines 58-67 / 109-118: the four unconditional setter calls, then
`SystemInstruction` is overwritten only when the config's prompt is
non-empty — otherwise whatever an earlier call installed stays. -/
def geminiApplyConfig (s : GModelState) (config : ModelConfig) : GModelState :=
  let s' : GModelState :=
    { s with
        Temperature := config.Temperature
        TopP := config.TopP
        TopK := config.TopK
        MaxOutputTokens := config.MaxTokens }
  if config.SystemPrompt ≠ "" then
    { s' with SystemInstruction := some config.SystemPrompt }
  else s'

/-- Response normalization shared by both Gemini operations (lines 82-104
and 163-185): usage copied when `UsageMetadata` is non-nil, text from
`Candidates[0].Content.Parts[0]` when that part is a `genai.Text`. -/
def geminiNormalize (resp : GenaiResp) : Response :=
  let usage : TokenUsage :=
    match resp.UsageMetadata with
    | none => ⟨0, 0, 0⟩
    | some u => ⟨u.PromptTokenCount, u.CandidatesTokenCount, u.TotalTokenCount⟩
  let text : String :=
    match resp.Candidates with
    | [] => ""
    | cand :: _ =>
      match cand.Content with
      | none => ""
      | some content =>
        match content.Parts with
        | .text s :: _ => s
        | _ => ""
  { Text := text, TokenUsage := usage, Raw := .gemini resp }

/-- The provider request of `GeminiClient.TextCompletion`: the model state
after applying the config, and the parts handed to `GenerateContent`
(`genai.Text(prompt)` where `prompt` is the last message's content);
`none` when the message list is empty. -/
def geminiTCRequest (s : GModelState) (messages : List InputMessage)
    (config : ModelConfig) : Option (GModelState × List GPart) :=
  (messages.getLast?).map
    (fun m => (geminiApplyConfig s config, [GPart.text m.Content]))

/-- `GeminiClient.TextCompletion`: apply config onto the shared model,
reject an empty message list, send only the last message's content.
Returns the post-call model state alongside the Go return values. -/
def geminiTextCompletion (s : GModelState)
    (sdk : GModelState → List GPart → Except String GenaiResp)
    (messages : List InputMessage) (config : ModelConfig) :
    GModelState × (Response × Option String) :=
  let s' := geminiApplyConfig s config
  match geminiTCRequest s messages config with
  | none => (s', (zeroResponse, some "no messages provided"))
  | some (st, parts) =>
    match sdk st parts with
    | .error e => (s', (zeroResponse, some ("failed to generate content: " ++ e)))
    | .ok resp => (s', (geminiNormalize resp, none))

/-- The image-parts loop of `GeminiClient.ImageRecognition` (lines 131-150):
inline data wins, else a non-empty URL is fetched via `download` (the
oracle for `http.Get` + `io.ReadAll`, already wrapped failures), an image
with neither is skipped. -/
def geminiImageParts (download : String → Except String (List Nat)) :
    List Image → Except String (List GPart)
  | [] => .ok []
  | img :: rest =>
    if img.Data.length > 0 then
      (geminiImageParts download rest).map (fun ps => .blob img.Format img.Data :: ps)
    else if img.URL ≠ "" then
      match download img.URL with
      | .error e => .error ("failed to download image: " ++ e)
      | .ok bytes =>
        (geminiImageParts download rest).map (fun ps => .blob img.Format bytes :: ps)
    else
      geminiImageParts download rest

/-- The provider request of `GeminiClient.ImageRecognition`: config applied
to the shared model, then the last message's images as blob parts followed
by its content as a text part when non-empty. -/
def geminiIRRequest (download : String → Except String (List Nat))
    (s : GModelState) (messages : List InputMessage) (config : ModelConfig) :
    Option (Except String (GModelState × List GPart)) :=
  (messages.getLast?).map (fun message =>
    (geminiImageParts download message.Images).map (fun imgParts =>
      (geminiApplyConfig s config,
        imgParts ++ (if message.Content ≠ "" then [GPart.text message.Content] else []))))

/-- `GeminiClient.ImageRecognition`: apply config, reject an empty message
list, build parts from the last message only, call `GenerateContent`. -/
def geminiImageRecognition (s : GModelState)
    (sdk : GModelState → List GPart → Except String GenaiResp)
    (download : String → Except String (List Nat))
    (messages : List InputMessage) (config : ModelConfig) :
    GModelState × (Response × Option String) :=
  let s' := geminiApplyConfig s config
  match geminiIRRequest download s messages config with
  | none => (s', (zeroResponse, some "no messages provided"))
  | some (.error e) => (s', (zeroResponse, some e))
  | some (.ok (st, parts)) =>
    match sdk st parts with
    | .error e => (s', (zeroResponse, some ("failed to generate content: " ++ e)))
    | .ok resp => (s', (geminiNormalize resp, none))

/-! ### Bedrock adapter (bedrock_client_implementation.go) -/

/-- The standard base64 alphabet used by Go's `base64.StdEncoding`. -/
def base64Alphabet : List Char :=
  "ABCDEFGHIJKLMNOPQRSTUVWXYZabcdefghijklmnopqrstuvwxyz0123456789+/".toList

/-- Character of the standard base64 alphabet at a 6-bit index. -/
def base64Char (n : Nat) : Char := base64Alphabet.getD n '?'

/-- Go `base64.StdEncoding.EncodeToString`: 3 bytes to 4 alphabet chars,
with `=` padding for a 1- or 2-byte tail. -/
def encodeBase64 : List Nat → String
  | [] => ""
  | [a] =>
    String.mk [base64Char (a / 4), base64Char (a % 4 * 16), '=', '=']
  | [a, b] =>
    String.mk [base64Char (a / 4), base64Char (a % 4 * 16 + b / 16),
      base64Char (b % 16 * 4), '=']
  | a :: b :: c :: rest =>
    String.mk [base64Char (a / 4), base64Char (a % 4 * 16 + b / 16),
      base64Char (b % 16 * 4 + c / 64), base64Char (c % 64)] ++ encodeBase64 rest

/-- One entry of a Bedrock message's `content` array: either a
`{"text": ...}` object or an `{"image": {"format": ..., "source":
{"bytes": ...}}}` object with base64-encoded bytes. -/
inductive BBlock where
  | text (s : String)
  | image (format : String) (bytes : String)
deriving DecidableEq, Repr

/-- One entry of the payload's `messages` array: `{"role": ..., "content":
[...]}`. -/
structure BMessage where
  role : String
  content : List BBlock
deriving DecidableEq, Repr

/-- The payload's `inferenceConfig` object. -/
structure BInferenceConfig where
  maxTokens : Int
  topP : ℚ
  topK : Int
  temperature : ℚ
deriving DecidableEq, Repr

/-- The `map[string]interface{}` request payload marshalled to JSON and
sent as the `InvokeModel` body, with its four keys as fields; the
`system` key holds a list of `{"text": ...}` objects, kept here as the
list of their text values. -/
structure BedrockPayload where
  schemaVersion : String
  messages : List BMessage
  system : List String
  inferenceConfig : BInferenceConfig
deriving DecidableEq, Repr

/-- Request building of `BedrockClient.TextCompletion` (lines 53-81): one
`{"role", "content": [{"text"}]}` object per input message, role copied
verbatim; system prompt as the single system entry; the four sampling
parameters under `inferenceConfig`. -/
def bedrockTCPayload (messages : List InputMessage) (config : ModelConfig) :
    BedrockPayload :=
  { schemaVersion := "messages-v1"
    messages := messages.map (fun msg => { role := msg.Role, content := [.text msg.Content] })
    system := [config.SystemPrompt]
    inferenceConfig :=
      { maxTokens := config.MaxTokens
        topP := config.TopP
        topK := config.TopK
        temperature := config.Temperature } }

/-- The `content` array `BedrockClient.ImageRecognition` builds from the
last message (lines 149-169): an image object per image with
base64-encoded inline bytes, then a text object when the content is
non-empty. -/
def bedrockIRContent (message : InputMessage) : List BBlock :=
  message.Images.map (fun img => .image img.Format (encodeBase64 img.Data))
    ++ (if message.Content ≠ "" then [.text message.Content] else [])

/-- Request payload of `BedrockClient.ImageRecognition` (lines 171-189):
a single message object for the given (last) message. -/
def bedrockIRPayload (message : InputMessage) (config : ModelConfig) :
    BedrockPayload :=
  { schemaVersion := "messages-v1"
    messages := [{ role := message.Role, content := bedrockIRContent message }]
    system := [config.SystemPrompt]
    inferenceConfig :=
      { maxTokens := config.MaxTokens
        topP := config.TopP
        topK := config.TopK
        temperature := config.Temperature } }

/-- The request body `BedrockClient.ImageRecognition` would marshal for a
given message list: `none` when the list is empty (the adapter errors out
before building anything), otherwise the payload for the last message. -/
def bedrockIRBody (messages : List InputMessage) (config : ModelConfig) :
    Option BedrockPayload :=
  (messages.getLast?).map (fun message => bedrockIRPayload message config)

/-- Outcome of `InvokeModel` followed by `json.Unmarshal`, as seen by the
adapter: the call itself may fail, the unmarshalling may fail, or a parsed
body comes back. -/
inductive BedrockOutcome where
  | invokeError (e : String)
  | unmarshalError (e : String)
  | ok (body : BedrockBody)

/-- Response normalization shared by both Bedrock operations (lines
121-136 and 229-244): input and output token counts copied, the total
computed as their sum, text from `Output.Message.Content[0]` when
present. -/
def bedrockNormalize (responseBody : BedrockBody) : Response :=
  let result : Response :=
    { Text := ""
      TokenUsage :=
        { InputTokens := responseBody.Usage.InputTokens
          OutputTokens := responseBody.Usage.OutputTokens
          TotalTokens := responseBody.Usage.InputTokens + responseBody.Usage.OutputTokens }
      Raw := .bedrock responseBody }
  match responseBody.Output.Message.Content with
  | [] => result
  | entry :: _ => { result with Text := entry.Text }

/-- `BedrockClient.TextCompletion`: build the payload from all messages,
invoke the model (`sdk` is the oracle for `InvokeModel` + unmarshal on
model id and body), wrap errors, normalize. -/
def bedrockTextCompletion (modelID : String)
    (sdk : String → BedrockPayload → BedrockOutcome)
    (messages : List InputMessage) (config : ModelConfig) :
    Response × Option String :=
  let payload := bedrockTCPayload messages config
  match sdk modelID payload with
  | .invokeError e => (zeroResponse, some ("error calling Bedrock API: " ++ e))
  | .unmarshalError e => (zeroResponse, some ("error unmarshaling response: " ++ e))
  | .ok body => (bedrockNormalize body, none)

/-- `BedrockClient.ImageRecognition`: reject an empty message list, build
the payload from the last message only, invoke the model, normalize. -/
def bedrockImageRecognition (modelID : String)
    (sdk : String → BedrockPayload → BedrockOutcome)
    (messages : List InputMessage) (config : ModelConfig) :
    Response × Option String :=
  match bedrockIRBody messages config with
  | none => (zeroResponse, some "no messages provided")
  | some payload =>
    match sdk modelID payload with
    | .invokeError e => (zeroResponse, some ("error calling Bedrock API: " ++ e))
    | .unmarshalError e => (zeroResponse, some ("error unmarshaling response: " ++ e))
    | .ok body => (bedrockNormalize body, none)

/-! ### Concrete fixtures used by witnesses and counterexamples -/

/-- A config with all sampling parameters zero and no system prompt. -/
def cfg0 : ModelConfig :=
  { Temperature := 0, TopP := 0, TopK := 0, MaxTokens := 0
    SystemPrompt := "", StopSequences := [] }

/-- A fresh Gemini model state (no system instruction installed yet). -/
def gstate0 : GModelState :=
  { Temperature := 0, TopP := 0, TopK := 0, MaxOutputTokens := 0
    SystemInstruction := none }

/-- A plain user message with the given content and no images. -/
def msgUser (content : String) : InputMessage :=
  { Role := "user", Content := content, Images := [] }

/-- A Gemini SDK oracle that always fails. -/
def gsdkErr : GModelState → List GPart → Except String GenaiResp :=
  fun _ _ => .error "e"

/-- A Bedrock SDK oracle whose invocation always fails. -/
def bsdkErr : String → BedrockPayload → BedrockOutcome :=
  fun _ _ => .invokeError "e"

/-- An image-download oracle that always fails. -/
def dlErr : String → Except String (List Nat) :=
  fun _ => .error "e"

/-! ### Claim theorems -/

/-- Claim C1: `NewClient` maps "openai" / "gemini" / "bedrock" to the
matching adapter and every other identifier to the "unsupported provider"
error; `InitializeClient` returns that same error on unknown identifiers
and otherwise propagates the chosen adapter's initialization error
unchanged (or returns the adapter on success). -/
theorem newClient_initializeClient_dispatch
    (s : String) (initResult : ClientKind → Option String) :
    NewClient "openai" = .ok .openai ∧
    NewClient "gemini" = .ok .gemini ∧
    NewClient "bedrock" = .ok .bedrock ∧
    (s ≠ "openai" → s ≠ "gemini" → s ≠ "bedrock" →
      NewClient s = .error ("unsupported provider: " ++ s) ∧
      InitializeClient s initResult = .error ("unsupported provider: " ++ s)) ∧
    (∀ c e, NewClient s = .ok c → initResult c = some e →
      InitializeClient s initResult = .error e) ∧
    (∀ c, NewClient s = .ok c → initResult c = none →
      InitializeClient s initResult = .ok c) := by
  refine ⟨rfl, rfl, rfl, ?_, ?_, ?_⟩
  · intro h1 h2 h3
    have hne : NewClient s = .error ("unsupported provider: " ++ s) := by
      simp [NewClient, h1, h2, h3]
    exact ⟨hne, by simp [InitializeClient, hne]⟩
  · intro c e hnc hini
    simp [InitializeClient, hnc, hini]
  · intro c hnc hini
    simp [InitializeClient, hnc, hini]

/-- Witness for C1 at concrete inputs: an unknown provider string, a
known provider whose initialization succeeds, and a known provider whose
initialization fails. -/
theorem newClient_initializeClient_dispatch_witness :
    InitializeClient "grok" (fun _ => none) = .error ("unsupported provider: " ++ "grok") ∧
    InitializeClient "openai" (fun _ => none) = .ok .openai ∧
    InitializeClient "gemini" (fun _ => some "bad key") = .error "bad key" := by
  refine ⟨?_, ?_, ?_⟩
  · exact ((newClient_initializeClient_dispatch "grok" (fun _ => none)).2.2.2.1
      (by decide) (by decide) (by decide)).2
  · exact (newClient_initializeClient_dispatch "openai" (fun _ => none)).2.2.2.2.2
      ClientKind.openai rfl rfl
  · exact (newClient_initializeClient_dispatch "gemini" (fun _ => some "bad key")).2.2.2.2.1
      ClientKind.gemini "bad key" rfl rfl

/-- Claim C3: the OpenAI adapter's image recognition returns the
"not implemented" error together with the zero-value response for every
input; the definition consumes no SDK oracle, so no provider call and no
fallback can occur. -/
theorem openai_imageRecognition_not_implemented
    (messages : List InputMessage) (config : ModelConfig) :
    openaiImageRecognition messages config =
      (zeroResponse, some "method not implemented for OpenAI client yet") := rfl

/-- Claim C9: whenever any adapter operation returns a non-nil error, the
response returned beside it is the zero value. -/
theorem error_implies_zero_response
    (modelID : String)
    (osdk : OpenAIParams → Except String OpenAIResp)
    (gsdk : GModelState → List GPart → Except String GenaiResp)
    (bsdk : String → BedrockPayload → BedrockOutcome)
    (download : String → Except String (List Nat))
    (s : GModelState)
    (messages : List InputMessage) (config : ModelConfig) :
    ((openaiTextCompletion modelID osdk messages config).2.isSome →
      (openaiTextCompletion modelID osdk messages config).1 = zeroResponse) ∧
    ((openaiImageRecognition messages config).2.isSome →
      (openaiImageRecognition messages config).1 = zeroResponse) ∧
    ((geminiTextCompletion s gsdk messages config).2.2.isSome →
      (geminiTextCompletion s gsdk messages config).2.1 = zeroResponse) ∧
    ((geminiImageRecognition s gsdk download messages config).2.2.isSome →
      (geminiImageRecognition s gsdk download messages config).2.1 = zeroResponse) ∧
    ((bedrockTextCompletion modelID bsdk messages config).2.isSome →
      (bedrockTextCompletion modelID bsdk messages config).1 = zeroResponse) ∧
    ((bedrockImageRecognition modelID bsdk messages config).2.isSome →
      (bedrockImageRecognition modelID bsdk messages config).1 = zeroResponse) := by
  refine ⟨?_, fun _ => rfl, ?_, ?_, ?_, ?_⟩
  · cases h : osdk (openaiBuildParams modelID messages config) <;>
      simp [openaiTextCompletion, h]
  · cases hr : geminiTCRequest s messages config with
    | none => simp [geminiTextCompletion, hr]
    | some p =>
      obtain ⟨st, parts⟩ := p
      cases hs : gsdk st parts <;> simp [geminiTextCompletion, hr, hs]
  · cases hr : geminiIRRequest download s messages config with
    | none => simp [geminiImageRecognition, hr]
    | some r =>
      cases r with
      | error e => simp [geminiImageRecognition, hr]
      | ok p =>
        obtain ⟨st, parts⟩ := p
        cases hs : gsdk st parts <;> simp [geminiImageRecognition, hr, hs]
  · cases h : bsdk modelID (bedrockTCPayload messages config) <;>
      simp [bedrockTextCompletion, h]
  · cases hr : bedrockIRBody messages config with
    | none => simp [bedrockImageRecognition, hr]
    | some payload =>
      cases h : bsdk modelID payload <;> simp [bedrockImageRecognition, hr, h]

/-- Witness for C9 at concrete failing calls: each adapter operation,
driven into an error, returns the zero response. -/
theorem error_implies_zero_response_witness :
    (openaiTextCompletion "m" (fun _ => .error "x") [msgUser "hi"] cfg0).1 = zeroResponse ∧
    (openaiImageRecognition [msgUser "hi"] cfg0).1 = zeroResponse ∧
    (geminiTextCompletion gstate0 gsdkErr [msgUser "hi"] cfg0).2.1 = zeroResponse ∧
    (geminiImageRecognition gstate0 gsdkErr dlErr [msgUser "hi"] cfg0).2.1 = zeroResponse ∧
    (bedrockTextCompletion "m" bsdkErr [msgUser "hi"] cfg0).1 = zeroResponse ∧
    (bedrockImageRecognition "m" bsdkErr [msgUser "hi"] cfg0).1 = zeroResponse := by
  have h := error_implies_zero_response "m" (fun _ => .error "x") gsdkErr bsdkErr dlErr
    gstate0 [msgUser "hi"] cfg0
  exact ⟨h.1 (by decide), h.2.1 (by decide), h.2.2.1 (by decide),
    h.2.2.2.1 (by decide), h.2.2.2.2.1 (by decide), h.2.2.2.2.2 (by decide)⟩

/-- Claim C10: on an empty message list, Gemini text completion, Gemini
image recognition and Bedrock image recognition return the
"no messages provided" error whatever the SDK oracle would answer (so the
provider is never contacted), while OpenAI and Bedrock text completion
build and send a request containing no input messages and return whatever
the provider answers. -/
theorem empty_message_list_behavior
    (modelID : String)
    (gsdk : GModelState → List GPart → Except String GenaiResp)
    (bsdk : String → BedrockPayload → BedrockOutcome)
    (download : String → Except String (List Nat))
    (s : GModelState) (config : ModelConfig)
    (oresp : OpenAIResp) (bbody : BedrockBody) :
    geminiTextCompletion s gsdk [] config =
      (geminiApplyConfig s config, (zeroResponse, some "no messages provided")) ∧
    geminiImageRecognition s gsdk download [] config =
      (geminiApplyConfig s config, (zeroResponse, some "no messages provided")) ∧
    bedrockImageRecognition modelID bsdk [] config =
      (zeroResponse, some "no messages provided") ∧
    openaiTextCompletion modelID (fun _ => .ok oresp) [] config =
      (openaiNormalize oresp, none) ∧
    (openaiBuildParams modelID [] config).Messages =
      (if config.SystemPrompt ≠ "" then [OAIMsg.system config.SystemPrompt] else []) ∧
    bedrockTextCompletion modelID (fun _ _ => .ok bbody) [] config =
      (bedrockNormalize bbody, none) ∧
    (bedrockTCPayload [] config).messages = [] := by
  refine ⟨rfl, rfl, rfl, rfl, ?_, rfl, rfl⟩
  simp [openaiBuildParams]

/-- Claim C2 counterexample: two message lists with the same last message
but different earlier messages yield different OpenAI provider requests,
so earlier messages do influence the request of `OpenAIClient.TextCompletion`. -/
theorem earlier_messages_influence_openai_request :
    [msgUser "earlier", msgUser "last"].getLast? = [msgUser "changed", msgUser "last"].getLast? ∧
    openaiBuildParams "m" [msgUser "earlier", msgUser "last"] cfg0 ≠
      openaiBuildParams "m" [msgUser "changed", msgUser "last"] cfg0 := by
  decide

/-- Claim C2 as amended: Gemini text completion, Gemini image recognition
and Bedrock image recognition depend only on the last message (two inputs
with the same last message behave identically), while OpenAI and Bedrock
text completion place every input message, in order, into the provider
request. -/
theorem last_message_usage
    (s : GModelState)
    (gsdk : GModelState → List GPart → Except String GenaiResp)
    (bsdk : String → BedrockPayload → BedrockOutcome)
    (download : String → Except String (List Nat))
    (modelID : String)
    (messages1 messages2 : List InputMessage) (config : ModelConfig)
    (h : messages1.getLast? = messages2.getLast?) :
    geminiTextCompletion s gsdk messages1 config =
      geminiTextCompletion s gsdk messages2 config ∧
    geminiImageRecognition s gsdk download messages1 config =
      geminiImageRecognition s gsdk download messages2 config ∧
    bedrockImageRecognition modelID bsdk messages1 config =
      bedrockImageRecognition modelID bsdk messages2 config ∧
    (∀ messages, (openaiBuildParams modelID messages config).Messages =
      (if config.SystemPrompt ≠ "" then [OAIMsg.system config.SystemPrompt] else [])
        ++ messages.map openaiMessageOf) ∧
    (∀ messages, (bedrockTCPayload messages config).messages =
      messages.map (fun msg => ⟨msg.Role, [BBlock.text msg.Content]⟩)) := by
  refine ⟨?_, ?_, ?_, fun _ => rfl, fun _ => rfl⟩
  · simp only [geminiTextCompletion, geminiTCRequest, h]
  · simp only [geminiImageRecognition, geminiIRRequest, h]
  · simp only [bedrockImageRecognition, bedrockIRBody, h]

/-- Witness for amended C2 at concrete inputs: dropping an earlier message
leaves the Gemini text-completion call unchanged. -/
theorem last_message_usage_witness :
    geminiTextCompletion gstate0 gsdkErr [msgUser "earlier", msgUser "last"] cfg0 =
      geminiTextCompletion gstate0 gsdkErr [msgUser "last"] cfg0 :=
  (last_message_usage gstate0 gsdkErr bsdkErr dlErr "m"
    [msgUser "earlier", msgUser "last"] [msgUser "last"] cfg0 (by decide)).1

/-! Helper lemmas for response normalization (claim C4). -/

/-- `openaiNormalize` copies the three usage counters unchanged. -/
theorem openaiNormalize_usage (r : OpenAIResp) :
    (openaiNormalize r).TokenUsage =
      ⟨r.Usage.PromptTokens, r.Usage.CompletionTokens, r.Usage.TotalTokens⟩ := by
  obtain ⟨choices, u⟩ := r
  cases choices <;> rfl

/-- The text `openaiNormalize` extracts depends only on the first choice. -/
theorem openaiNormalize_text (r1 r2 : OpenAIResp)
    (h : r1.Choices.head? = r2.Choices.head?) :
    (openaiNormalize r1).Text = (openaiNormalize r2).Text := by
  obtain ⟨c1, u1⟩ := r1
  obtain ⟨c2, u2⟩ := r2
  cases c1 <;> cases c2 <;> simp_all [openaiNormalize]

/-- `geminiNormalize` copies the usage metadata counters when present and
leaves them zero otherwise. -/
theorem geminiNormalize_usage (r : GenaiResp) :
    (geminiNormalize r).TokenUsage =
      (match r.UsageMetadata with
        | none => (⟨0, 0, 0⟩ : TokenUsage)
        | some u => ⟨u.PromptTokenCount, u.CandidatesTokenCount, u.TotalTokenCount⟩) := rfl

/-- The text `geminiNormalize` extracts depends only on the first candidate. -/
theorem geminiNormalize_text (r1 r2 : GenaiResp)
    (h : r1.Candidates.head? = r2.Candidates.head?) :
    (geminiNormalize r1).Text = (geminiNormalize r2).Text := by
  obtain ⟨c1, u1⟩ := r1
  obtain ⟨c2, u2⟩ := r2
  cases c1 <;> cases c2 <;> simp_all [geminiNormalize]

/-- `bedrockNormalize` copies input and output counters and computes the
total as their sum. -/
theorem bedrockNormalize_usage (b : BedrockBody) :
    (bedrockNormalize b).TokenUsage =
      ⟨b.Usage.InputTokens, b.Usage.OutputTokens,
        b.Usage.InputTokens + b.Usage.OutputTokens⟩ := by
  obtain ⟨⟨⟨content⟩⟩, u⟩ := b
  cases content <;> rfl

/-- The text `bedrockNormalize` extracts depends only on the first content
entry. -/
theorem bedrockNormalize_text (b1 b2 : BedrockBody)
    (h : b1.Output.Message.Content.head? = b2.Output.Message.Content.head?) :
    (bedrockNormalize b1).Text = (bedrockNormalize b2).Text := by
  obtain ⟨⟨⟨c1⟩⟩, u1⟩ := b1
  obtain ⟨⟨⟨c2⟩⟩, u2⟩ := b2
  cases c1 <;> cases c2 <;> simp_all [bedrockNormalize]

/-- A Gemini response with a single candidate. -/
def gRespOne : GenaiResp :=
  { Candidates := [⟨some ⟨[GPart.text "hello"]⟩⟩], UsageMetadata := some ⟨1, 2, 3⟩ }

/-- Like `gRespOne` plus a second candidate the adapter never reads. -/
def gRespTwo : GenaiResp :=
  { Candidates := [⟨some ⟨[GPart.text "hello"]⟩⟩, ⟨some ⟨[GPart.text "extra"]⟩⟩]
    UsageMetadata := some ⟨1, 2, 3⟩ }

/-- Claim C4 counterexample: two Gemini provider responses agreeing on the
first candidate and the usage metadata but differing in a second candidate
produce different `Response` values (the full provider payload sits in
`Response.Raw`), so a candidate beyond the first does affect the returned
`Response`. -/
theorem second_candidate_affects_response :
    gRespOne.Candidates.head? = gRespTwo.Candidates.head? ∧
    gRespOne.UsageMetadata = gRespTwo.UsageMetadata ∧
    geminiNormalize gRespOne ≠ geminiNormalize gRespTwo := by
  decide

/-- Claim C4 as amended: each adapter copies the token counters into
`Response.TokenUsage` (Bedrock copies input and output and computes the
total as their sum; Gemini leaves zeros when the usage metadata is nil),
sets `Response.Text` from the first choice/candidate/content entry only
(empty when there is none), and candidates, choices or entries beyond the
first never affect `Response.Text` or `Response.TokenUsage` — they remain
visible only in `Response.Raw`. -/
theorem normalization_first_candidate_only
    (oresp1 oresp2 : OpenAIResp) (gresp1 gresp2 : GenaiResp)
    (bbody1 bbody2 : BedrockBody) (gu : GUsage)
    (ho : oresp1.Choices.head? = oresp2.Choices.head?)
    (hou : oresp1.Usage = oresp2.Usage)
    (hg : gresp1.Candidates.head? = gresp2.Candidates.head?)
    (hgu : gresp1.UsageMetadata = gresp2.UsageMetadata)
    (hb : bbody1.Output.Message.Content.head? = bbody2.Output.Message.Content.head?)
    (hbu : bbody1.Usage = bbody2.Usage) :
    (openaiNormalize oresp1).TokenUsage =
      ⟨oresp1.Usage.PromptTokens, oresp1.Usage.CompletionTokens, oresp1.Usage.TotalTokens⟩ ∧
    (oresp1.Choices = [] → (openaiNormalize oresp1).Text = "") ∧
    (openaiNormalize oresp1).Text = (openaiNormalize oresp2).Text ∧
    (openaiNormalize oresp1).TokenUsage = (openaiNormalize oresp2).TokenUsage ∧
    (gresp1.UsageMetadata = some gu →
      (geminiNormalize gresp1).TokenUsage =
        ⟨gu.PromptTokenCount, gu.CandidatesTokenCount, gu.TotalTokenCount⟩) ∧
    (gresp1.UsageMetadata = none → (geminiNormalize gresp1).TokenUsage = ⟨0, 0, 0⟩) ∧
    (gresp1.Candidates = [] → (geminiNormalize gresp1).Text = "") ∧
    (geminiNormalize gresp1).Text = (geminiNormalize gresp2).Text ∧
    (geminiNormalize gresp1).TokenUsage = (geminiNormalize gresp2).TokenUsage ∧
    (bedrockNormalize bbody1).TokenUsage =
      ⟨bbody1.Usage.InputTokens, bbody1.Usage.OutputTokens,
        bbody1.Usage.InputTokens + bbody1.Usage.OutputTokens⟩ ∧
    (bbody1.Output.Message.Content = [] → (bedrockNormalize bbody1).Text = "") ∧
    (bedrockNormalize bbody1).Text = (bedrockNormalize bbody2).Text ∧
    (bedrockNormalize bbody1).TokenUsage = (bedrockNormalize bbody2).TokenUsage := by
  refine ⟨openaiNormalize_usage oresp1, ?_, openaiNormalize_text _ _ ho, ?_, ?_, ?_, ?_,
    geminiNormalize_text _ _ hg, ?_, bedrockNormalize_usage bbody1, ?_,
    bedrockNormalize_text _ _ hb, ?_⟩
  · intro hc
    obtain ⟨choices, u⟩ := oresp1
    simp only at hc
    subst hc
    rfl
  · rw [openaiNormalize_usage, openaiNormalize_usage, hou]
  · intro hsome
    rw [geminiNormalize_usage, hsome]
  · intro hnone
    rw [geminiNormalize_usage, hnone]
  · intro hc
    obtain ⟨cands, u⟩ := gresp1
    simp only at hc
    subst hc
    cases u <;> rfl
  · rw [geminiNormalize_usage, geminiNormalize_usage, hgu]
  · intro hc
    obtain ⟨⟨⟨content⟩⟩, u⟩ := bbody1
    simp only at hc
    subst hc
    rfl
  · rw [bedrockNormalize_usage, bedrockNormalize_usage, hbu]

/-- Witness for amended C4 at the concrete responses of the
counterexample: text and token usage agree even though the second
candidate differs. -/
theorem normalization_first_candidate_only_witness :
    (geminiNormalize gRespOne).Text = (geminiNormalize gRespTwo).Text ∧
    (geminiNormalize gRespOne).TokenUsage = (geminiNormalize gRespTwo).TokenUsage := by
  have h := normalization_first_candidate_only
    ⟨[], ⟨0, 0, 0⟩⟩ ⟨[], ⟨0, 0, 0⟩⟩ gRespOne gRespTwo
    ⟨⟨⟨[]⟩⟩, ⟨0, 0⟩⟩ ⟨⟨⟨[]⟩⟩, ⟨0, 0⟩⟩ ⟨1, 2, 3⟩
    rfl rfl (by decide) (by decide) rfl rfl
  exact ⟨h.2.2.2.2.2.2.2.1, h.2.2.2.2.2.2.2.2.1⟩

/-- A config differing from `cfg0` only in top-k = 5. -/
def cfgTopK5 : ModelConfig :=
  { Temperature := 0, TopP := 0, TopK := 5, MaxTokens := 0
    SystemPrompt := "", StopSequences := [] }

/-- A config differing from `cfg0` only in top-k = 50. -/
def cfgTopK50 : ModelConfig :=
  { Temperature := 0, TopP := 0, TopK := 50, MaxTokens := 0
    SystemPrompt := "", StopSequences := [] }

/-- Claim C5 counterexample: two configs that differ only in top-k produce
the identical OpenAI request — the OpenAI params object has no top-k
field, so top-k is omitted rather than copied. -/
theorem openai_topk_omitted :
    cfgTopK5.TopK ≠ cfgTopK50.TopK ∧
    cfgTopK5.Temperature = cfgTopK50.Temperature ∧
    cfgTopK5.TopP = cfgTopK50.TopP ∧
    cfgTopK5.MaxTokens = cfgTopK50.MaxTokens ∧
    openaiBuildParams "m" [msgUser "hi"] cfgTopK5 =
      openaiBuildParams "m" [msgUser "hi"] cfgTopK50 := by
  decide

/-- Claim C5 as amended: Gemini and Bedrock copy all four sampling
parameters (temperature, top-p, top-k, max tokens) onto the provider
request unmodified; OpenAI copies temperature, top-p and max tokens
unmodified but omits top-k, since its request object has no such field. -/
theorem sampling_params_copied
    (modelID : String) (messages : List InputMessage) (config : ModelConfig)
    (s : GModelState) (message : InputMessage) :
    (openaiBuildParams modelID messages config).Temperature = config.Temperature ∧
    (openaiBuildParams modelID messages config).TopP = config.TopP ∧
    (openaiBuildParams modelID messages config).MaxTokens = config.MaxTokens ∧
    (geminiApplyConfig s config).Temperature = config.Temperature ∧
    (geminiApplyConfig s config).TopP = config.TopP ∧
    (geminiApplyConfig s config).TopK = config.TopK ∧
    (geminiApplyConfig s config).MaxOutputTokens = config.MaxTokens ∧
    (bedrockTCPayload messages config).inferenceConfig =
      ⟨config.MaxTokens, config.TopP, config.TopK, config.Temperature⟩ ∧
    (bedrockIRPayload message config).inferenceConfig =
      ⟨config.MaxTokens, config.TopP, config.TopK, config.Temperature⟩ := by
  refine ⟨rfl, rfl, rfl, ?_, ?_, ?_, ?_, rfl, rfl⟩ <;>
    (unfold geminiApplyConfig; split <;> rfl)

/-- Claim C6 counterexample: on a two-message input, the body built by
`BedrockClient.ImageRecognition` holds a single message object (for the
last message), not one object per input message with text-block content. -/
theorem bedrock_ir_single_message :
    (bedrockIRBody [msgUser "one", msgUser "two"] cfg0).map
        (fun p => p.messages.length) = some 1 ∧
    ¬ (bedrockIRBody [msgUser "one", msgUser "two"] cfg0).map (fun p => p.messages) =
        some ([msgUser "one", msgUser "two"].map
          (fun msg => ⟨msg.Role, [BBlock.text msg.Content]⟩)) := by
  decide

/-- Claim C6 as amended: both Bedrock bodies carry schemaVersion
"messages-v1", the system prompt as a single text entry and the four
inference parameters; the text-completion body holds one
role-plus-text-block object per input message (role and text copied), and
the image-recognition body holds a single object for the last message
whose content array has one base64 image block per image followed by a
text block when the content is non-empty. -/
theorem bedrock_request_shape
    (messages : List InputMessage) (config : ModelConfig) (m : InputMessage)
    (i : Nat) (hlast : messages.getLast? = some m) :
    (bedrockTCPayload messages config).schemaVersion = "messages-v1" ∧
    (bedrockTCPayload messages config).messages.length = messages.length ∧
    (bedrockTCPayload messages config).messages[i]? =
      (messages[i]?).map (fun msg => ⟨msg.Role, [BBlock.text msg.Content]⟩) ∧
    (bedrockTCPayload messages config).system = [config.SystemPrompt] ∧
    (bedrockTCPayload messages config).inferenceConfig =
      ⟨config.MaxTokens, config.TopP, config.TopK, config.Temperature⟩ ∧
    bedrockIRBody messages config = some
      { schemaVersion := "messages-v1"
        messages := [⟨m.Role,
          m.Images.map (fun img => BBlock.image img.Format (encodeBase64 img.Data))
            ++ (if m.Content ≠ "" then [BBlock.text m.Content] else [])⟩]
        system := [config.SystemPrompt]
        inferenceConfig := ⟨config.MaxTokens, config.TopP, config.TopK, config.Temperature⟩ } := by
  refine ⟨rfl, by simp [bedrockTCPayload], ?_, rfl, rfl, ?_⟩
  · exact List.getElem?_map _ messages i
  · simp [bedrockIRBody, hlast, bedrockIRPayload, bedrockIRContent]

/-- Witness for amended C6 at a concrete two-message input. -/
theorem bedrock_request_shape_witness :
    (bedrockTCPayload [msgUser "one", msgUser "two"] cfg0).messages[0]? =
      some ⟨"user", [BBlock.text "one"]⟩ ∧
    bedrockIRBody [msgUser "one", msgUser "two"] cfg0 = some
      { schemaVersion := "messages-v1"
        messages := [⟨"user", [BBlock.text "two"]⟩]
        system := [""]
        inferenceConfig := ⟨0, 0, 0, 0⟩ } := by
  have h := bedrock_request_shape [msgUser "one", msgUser "two"] cfg0
    (msgUser "two") 0 (by decide)
  refine ⟨?_, ?_⟩
  · rw [h.2.2.1]; decide
  · rw [h.2.2.2.2.2]; decide

/-- A message whose role is none of the recognized role strings. -/
def msgWeirdRole : InputMessage :=
  { Role := "frobnicator", Content := "hi", Images := [] }

/-- Claim C7 counterexample: the Bedrock text-completion body copies an
unrecognized role verbatim instead of treating the message as a user
message. -/
theorem bedrock_role_copied_verbatim :
    msgWeirdRole.Role ≠ "user" ∧
    (bedrockTCPayload [msgWeirdRole] cfg0).messages =
      [⟨"frobnicator", [BBlock.text "hi"]⟩] ∧
    ¬ (bedrockTCPayload [msgWeirdRole] cfg0).messages =
      [⟨"user", [BBlock.text "hi"]⟩] := by
  decide

/-- Claim C7 as amended: only the OpenAI adapter defaults an unrecognized
role to a user message; the Bedrock adapter copies the role string into
the request verbatim; the Gemini adapter ignores the role entirely (two
messages differing only in role produce the same call). -/
theorem role_defaulting
    (msg : InputMessage) (h1 : msg.Role ≠ "system") (h2 : msg.Role ≠ "assistant")
    (messages : List InputMessage) (config : ModelConfig)
    (s : GModelState)
    (gsdk : GModelState → List GPart → Except String GenaiResp)
    (role1 role2 content : String) (imgs : List Image) :
    openaiMessageOf msg = .user msg.Content ∧
    (bedrockTCPayload messages config).messages =
      messages.map (fun m => ⟨m.Role, [BBlock.text m.Content]⟩) ∧
    geminiTextCompletion s gsdk [⟨role1, content, imgs⟩] config =
      geminiTextCompletion s gsdk [⟨role2, content, imgs⟩] config := by
  refine ⟨?_, rfl, rfl⟩
  simp [openaiMessageOf, h1, h2]

/-- Witness for amended C7 at the concrete unrecognized role. -/
theorem role_defaulting_witness :
    openaiMessageOf msgWeirdRole = .user "hi" :=
  (role_defaulting msgWeirdRole (by decide) (by decide) [] cfg0 gstate0 gsdkErr
    "user" "user" "" []).1

/-- A config whose only non-zero field is the system prompt "You are X". -/
def cfgSysX : ModelConfig :=
  { Temperature := 0, TopP := 0, TopK := 0, MaxTokens := 0
    SystemPrompt := "You are X", StopSequences := [] }

/-- A config whose only non-zero field is the system prompt "You are Y". -/
def cfgSysY : ModelConfig :=
  { Temperature := 0, TopP := 0, TopK := 0, MaxTokens := 0
    SystemPrompt := "You are Y", StopSequences := [] }

/-- Claim C8 counterexample: two Gemini text-completion calls with
identical arguments (empty system prompt) issue different provider
requests depending on which system prompt an earlier call on the same
adapter instance installed — the shared model object carries state across
calls. -/
theorem gemini_state_leaks_across_calls :
    geminiTCRequest (geminiTextCompletion gstate0 gsdkErr [msgUser "a"] cfgSysX).1
        [msgUser "b"] cfg0 ≠
      geminiTCRequest (geminiTextCompletion gstate0 gsdkErr [msgUser "a"] cfgSysY).1
        [msgUser "b"] cfg0 := by
  decide

/-- Claim C8 as amended: the OpenAI and Bedrock request builders take no
adapter state, but the Gemini adapter mutates its shared model: when a
call's config has a non-empty system prompt every model field is
overwritten and the request is independent of prior calls, while a call
with an empty system prompt inherits whatever system instruction an
earlier call installed. -/
theorem gemini_shared_state
    (s1 s2 s : GModelState) (messages : List InputMessage)
    (config config2 : ModelConfig)
    (h : config.SystemPrompt ≠ "") (h2 : config2.SystemPrompt = "") :
    geminiTCRequest s1 messages config = geminiTCRequest s2 messages config ∧
    (geminiApplyConfig s config2).SystemInstruction = s.SystemInstruction ∧
    (geminiApplyConfig s config).SystemInstruction = some config.SystemPrompt := by
  refine ⟨?_, ?_, ?_⟩
  · simp [geminiTCRequest, geminiApplyConfig, h]
  · simp [geminiApplyConfig, h2]
  · simp [geminiApplyConfig, h]

/-- Witness for amended C8 at concrete states and configs. -/
theorem gemini_shared_state_witness :
    geminiTCRequest (geminiApplyConfig gstate0 cfgSysX) [msgUser "b"] cfgSysY =
      geminiTCRequest gstate0 [msgUser "b"] cfgSysY ∧
    (geminiApplyConfig (geminiApplyConfig gstate0 cfgSysX) cfg0).SystemInstruction =
      (geminiApplyConfig gstate0 cfgSysX).SystemInstruction ∧
    (geminiApplyConfig gstate0 cfgSysX).SystemInstruction = some "You are X" := by
  have h := gemini_shared_state (geminiApplyConfig gstate0 cfgSysX) gstate0
    (geminiApplyConfig gstate0 cfgSysX) [msgUser "b"] cfgSysY cfg0
    (by decide) (by decide)
  have h3 := gemini_shared_state gstate0 gstate0 gstate0 [msgUser "b"] cfgSysX cfg0
    (by decide) (by decide)
  exact ⟨h.1, h.2.1, h3.2.2⟩
